import Mathlib

/-!
Verification of the gastown task-registry and coordination workflow.

The definitions below are a shallow embedding of `gastown/registry.py`
(task registry: statuses, tasks, dependency and file-conflict checks,
serialization) and of the decision logic of the workflow commands in
`gastown/cli.py` (claim, submit, approve, merge).  External git and
GitHub-CLI calls are modelled by an explicit environment (`GitEnv`)
recording the outcomes the code branches on; plumbing git commands whose
failure the CLI never catches (checkout, add, commit) simply abort the
process after their point in the program and are not modelled, except
where noted (the trailing push/pull after the registry file is written).
Strings are handled through their character lists so that every
definition evaluates by kernel reduction.
-/

namespace Gastown

/-- Python's `s.startswith(pre)`: `pre` is a character-level prefix of `s`. -/
def strStartsWith (s pre : String) : Bool :=
  pre.data.isPrefixOf s.data

/-- Python's `s.rstrip("/")`: remove every trailing `/` character. -/
def rstripSlash (s : String) : String :=
  ⟨(s.data.reverse.dropWhile (fun c => c == '/')).reverse⟩

/-- Status of a task (`TaskStatus` in `registry.py`). -/
inductive TaskStatus where
  | pending
  | claimed
  | in_progress
  | review
  | merged
  deriving DecidableEq, Repr, BEq

/-- Wire string of a status (the `value` of the Python `str`-enum). -/
def TaskStatus.value : TaskStatus → String
  | .pending => "pending"
  | .claimed => "claimed"
  | .in_progress => "in_progress"
  | .review => "review"
  | .merged => "merged"

/-- Inverse of `TaskStatus.value`; `none` models the `ValueError` Python's
`TaskStatus(str)` raises on an unknown wire string. -/
def TaskStatus.ofValue : String → Option TaskStatus
  | "pending" => some .pending
  | "claimed" => some .claimed
  | "in_progress" => some .in_progress
  | "review" => some .review
  | "merged" => some .merged
  | _ => none

/-- Position of a status along the workflow order
pending → claimed → in_progress → review → merged. -/
def statusIdx : TaskStatus → Nat
  | .pending => 0
  | .claimed => 1
  | .in_progress => 2
  | .review => 3
  | .merged => 4

/-- Whether one status is at or before another in the workflow order. -/
def statusLe (a b : TaskStatus) : Prop :=
  statusIdx a ≤ statusIdx b

/-- A task in the registry (`Task` dataclass in `registry.py`).
Python's `None` for `claimed_by` / `branch` is `none`. -/
structure Task where
  id : String
  description : String
  status : TaskStatus := .pending
  claimed_by : Option String := none
  branch : Option String := none
  files : List String := []
  depends_on : List String := []
  deriving DecidableEq, Repr

/-- The task registry (`Registry` dataclass in `registry.py`). -/
structure Registry where
  goal : String
  tasks : List Task
  deriving DecidableEq, Repr

/-- Pointwise workflow ordering on tasks: the second task's status is at
or after the first's. -/
def taskStatusLe (t u : Task) : Prop :=
  statusLe t.status u.status

/-- Lookup of a task by id: first task in registry order whose id matches
(`Registry.get_task`). -/
def Registry.get_task (r : Registry) (task_id : String) : Option Task :=
  r.tasks.find? (fun t => t.id == task_id)

/-- All tasks claimed by an agent (`Registry.get_tasks_by_agent`). -/
def Registry.get_tasks_by_agent (r : Registry) (agent_name : String) : List Task :=
  r.tasks.filter (fun t => t.claimed_by == some agent_name)

/-- All tasks awaiting review (`Registry.get_tasks_in_review`). -/
def Registry.get_tasks_in_review (r : Registry) : List Task :=
  r.tasks.filter (fun t => t.status == .review)

/-- Unmet-dependency check (`Registry.check_dependencies`): a loop over
`task.depends_on` appending one descriptor for each absent or un-merged
dependency. -/
def Registry.check_dependencies (r : Registry) (task : Task) : List String :=
  task.depends_on.foldl
    (fun unmet dep_id =>
      match r.get_task dep_id with
      | none => unmet ++ [dep_id ++ " (not found)"]
      | some dep =>
        if dep.status ≠ .merged then
          unmet ++ [dep_id ++ " (status: " ++ dep.status.value ++ ")"]
        else unmet)
    []

/-- Path-overlap test (`Registry._paths_overlap`): strip trailing slashes,
then plain string-prefix comparison in either direction (or equality). -/
def paths_overlap (path1 path2 : String) : Bool :=
  let p1 := rstripSlash path1
  let p2 := rstripSlash path2
  strStartsWith p1 p2 || strStartsWith p2 p1 || p1 == p2

/-- Statuses considered "active" for file-conflict detection
(the `active_statuses` set in `Registry.check_file_conflicts`). -/
def activeStatus (s : TaskStatus) : Bool :=
  s == .claimed || s == .in_progress || s == .review

/-- File-conflict check (`Registry.check_file_conflicts`): triple nested
loop appending a `(task_file, other)` pair for every overlap between a
file of `task` and a file of a different active task. -/
def Registry.check_file_conflicts (r : Registry) (task : Task) :
    List (String × Task) :=
  r.tasks.foldl
    (fun conflicts other =>
      if other.id == task.id then conflicts
      else if ¬ activeStatus other.status then conflicts
      else
        task.files.foldl
          (fun cs task_file =>
            other.files.foldl
              (fun cs2 other_file =>
                if paths_overlap task_file other_file then
                  cs2 ++ [(task_file, other)]
                else cs2)
              cs)
          conflicts)
    []

/-! Serialization (`Task.to_dict` / `Task.from_dict`, `Registry.save` /
`Registry.load`).  A YAML mapping value is either a string or a list of
strings; a task dictionary is an ordered association list, which also
records the field order `to_dict` writes. -/

/-- A YAML value as used by the registry file: a scalar string or a list
of strings. -/
inductive YVal where
  | s : String → YVal
  | ls : List String → YVal
  deriving DecidableEq, Repr

/-- An ordered task dictionary, as written to and read from the YAML file. -/
abbrev TaskDict := List (String × YVal)

/-- Python `data.get(key)`: first value stored under a key, if any. -/
def dictGet (d : TaskDict) (key : String) : Option YVal :=
  (d.find? (fun kv => kv.1 == key)).map (fun kv => kv.2)

/-- Coerce an optional YAML value to a string, `none` when absent or not a
string. -/
def getStr : Option YVal → Option String
  | some (.s v) => some v
  | _ => none

/-- Coerce an optional YAML value to a string list, `none` when absent or
not a list. -/
def getList : Option YVal → Option (List String)
  | some (.ls v) => some v
  | _ => none

/-- Serialization of a task (`Task.to_dict`): id, description and status
always, then each of claimed_by, branch, files, depends_on only when
Python-truthy (not `None`, not empty). -/
def Task.to_dict (t : Task) : TaskDict :=
  [("id", .s t.id), ("description", .s t.description),
   ("status", .s t.status.value)]
  ++ (match t.claimed_by with
      | some v => if v == "" then [] else [("claimed_by", YVal.s v)]
      | none => [])
  ++ (match t.branch with
      | some v => if v == "" then [] else [("branch", YVal.s v)]
      | none => [])
  ++ (if t.files.isEmpty then [] else [("files", YVal.ls t.files)])
  ++ (if t.depends_on.isEmpty then [] else [("depends_on", YVal.ls t.depends_on)])

/-- Parsing of a task (`Task.from_dict`): `id` and `description` are
required, `status` defaults to "pending" and must be a known wire string,
the remaining fields default to absent/empty. -/
def Task.from_dict (d : TaskDict) : Option Task :=
  match getStr (dictGet d "id"), getStr (dictGet d "description") with
  | some id, some description =>
    match TaskStatus.ofValue ((getStr (dictGet d "status")).getD "pending") with
    | some status =>
      some { id := id, description := description, status := status,
             claimed_by := getStr (dictGet d "claimed_by"),
             branch := getStr (dictGet d "branch"),
             files := (getList (dictGet d "files")).getD [],
             depends_on := (getList (dictGet d "depends_on")).getD [] }
    | none => none
  | _, _ => none

/-- Content of the registry file: the goal and one dictionary per task,
in registry order (`Registry.save` always writes both keys). -/
structure RegData where
  goal : String
  tasks : List TaskDict
  deriving DecidableEq, Repr

/-- Serialization of a registry (`Registry.save`). -/
def Registry.to_data (r : Registry) : RegData :=
  { goal := r.goal, tasks := r.tasks.map Task.to_dict }

/-- Parse every task dictionary in order, failing on the first malformed
one (the list comprehension in `Registry.load`, whose exceptions
propagate). -/
def fromDicts : List TaskDict → Option (List Task)
  | [] => some []
  | d :: ds =>
    match Task.from_dict d, fromDicts ds with
    | some t, some ts => some (t :: ts)
    | _, _ => none

/-- Parsing of a registry (`Registry.load`); `none` models the exception
raised when some task dictionary is malformed. -/
def Registry.of_data (d : RegData) : Option Registry :=
  (fromDicts d.tasks).map (fun ts => { goal := d.goal, tasks := ts })

/-! Workflow operations from `cli.py`.  Each operation returns
`Except String X`: `.error msg` models `sys.exit(1)` (or an uncaught
exception) before anything is written to the registry file, so an error
implies the registry on disk is unchanged; `.ok` carries the registry
state that was written by `registry.save`. -/

/-- Information about a pull request (`PRInfo` in `gitops.py`). -/
structure PRInfo where
  number : Nat
  title : String
  branch : String
  author : String
  url : String
  deriving DecidableEq, Repr

/-- Outcomes of the external git / GitHub-CLI calls the workflow branches
on.  Each field models the result of the named call at the one site where
the CLI inspects or catches it; calls whose failure the CLI neither
catches nor inspects before the registry is saved are assumed to succeed. -/
structure GitEnv where
  /-- result of `branch_exists(name)` in claim -/
  branchExists : String → Bool
  /-- result of `has_remote()` -/
  hasRemote : Bool
  /-- whether `is_rebased(origin/<default>)` holds in submit -/
  isRebased : Bool
  /-- whether `push(branch, set_upstream=True)` in submit succeeds -/
  pushOk : Bool
  /-- whether `create_pr` in submit succeeds -/
  createPrOk : Bool
  /-- whether `list_prs("open")` succeeds -/
  listPrsOk : Bool
  /-- the open pull requests returned by `list_prs("open")` -/
  prs : List PRInfo
  /-- whether `approve_pr` on the matched PR succeeds -/
  approvePrOk : Bool
  /-- whether `merge_pr` on the matched PR succeeds -/
  mergePrOk : Bool
  /-- whether the `pull()` on the default branch after merge saves succeeds -/
  pullOk : Bool
  /-- whether the trailing `push` (after the registry commit) succeeds -/
  finalPushOk : Bool

/-- Replace the first task satisfying `p` by its image under `f`; the
Lean counterpart of Python's in-place mutation of the object found by a
linear search. -/
def updateFirstBy (p : Task → Bool) (f : Task → Task) : List Task → List Task
  | [] => []
  | t :: ts => if p t then f t :: ts else t :: updateFirstBy p f ts

/-- Field update performed by a successful claim. -/
def claimUpdate (agentName branchName : String) (t : Task) : Task :=
  { t with status := .claimed, claimed_by := some agentName,
           branch := some branchName }

/-- Registry state saved by a successful claim: the first task with the
claimed id is marked claimed by the agent on the new branch. -/
def Registry.claimTask (r : Registry) (agentName task_id branch_name : String) :
    Registry :=
  { r with tasks := updateFirstBy (fun t => t.id == task_id)
             (claimUpdate agentName branch_name) r.tasks }

/-- Registry state saved by a successful submit: the first task whose
branch is the current branch is moved to review. -/
def Registry.submitTask (r : Registry) (currentBranch : String) : Registry :=
  { r with tasks := updateFirstBy (fun t => t.branch == some currentBranch)
             (fun t => { t with status := .review }) r.tasks }

/-- Registry state saved by a successful merge: the first task with the
merged id is marked merged. -/
def Registry.mergeTask (r : Registry) (task_id : String) : Registry :=
  { r with tasks := updateFirstBy (fun t => t.id == task_id)
             (fun t => { t with status := .merged }) r.tasks }

/-- Number of the PR approve acts on externally: the first open PR whose
branch equals the task's branch, provided the listing and the approval
call succeed (every failure there is caught and ignored). -/
def approvedPrNumber (env : GitEnv) (task : Task) : Option Nat :=
  if env.listPrsOk then
    match env.prs.find? (fun pr => some pr.branch == task.branch) with
    | some pr => if env.approvePrOk then some pr.number else none
    | none => none
  else none

/-- The `claim` command (`cli.py`): validate the task, its dependencies
and file conflicts (both overridable by `--force`), require the branch
`agent/<agent>/<id>` to be new, then mark the task claimed and save.  The
opportunistic `pull()` has its error suppressed and cannot affect the
outcome. -/
def claim (env : GitEnv) (agentName : String) (r : Registry)
    (task_id : String) (force : Bool) : Except String Registry :=
  match r.get_task task_id with
  | none => .error ("Error: Task '" ++ task_id ++ "' not found.")
  | some task =>
    if task.status ≠ .pending then
      .error ("Error: Task '" ++ task_id ++ "' is not pending (status: "
              ++ task.status.value ++ ").")
    else
      let unmet := r.check_dependencies task
      if unmet ≠ [] ∧ force = false then .error "Error: Unmet dependencies"
      else
        let conflicts := r.check_file_conflicts task
        if conflicts ≠ [] ∧ force = false then
          .error "Warning: Potential file conflicts"
        else
          let branch_name := "agent/" ++ agentName ++ "/" ++ task_id
          if env.branchExists branch_name then
            .error ("Error: Branch '" ++ branch_name ++ "' already exists.")
          else
            .ok (r.claimTask agentName task_id branch_name)

/-- Result of a successful submit: the saved registry, whether the
external PR creation succeeded (its failure is caught and tolerated), and
whether the trailing push of the registry commit succeeded (it runs after
the save and commit). -/
structure SubmitResult where
  registry : Registry
  prCreated : Bool
  clean : Bool
  deriving DecidableEq, Repr

/-- The `submit` command (`cli.py`): the current branch must not be the
default branch and must map to a task claimed by the acting agent; with a
remote, the branch must be rebased; the branch push is fatal on failure;
PR creation failure is caught and the task still advances to review and
is saved and committed. -/
def submit (env : GitEnv) (agentName currentBranch defaultBranch : String)
    (r : Registry) : Except String SubmitResult :=
  if currentBranch == defaultBranch then
    .error ("Error: You're on " ++ defaultBranch ++ ". Switch to a task branch first.")
  else
    match r.tasks.find? (fun t => t.branch == some currentBranch) with
    | none => .error ("Error: No task found for branch '" ++ currentBranch ++ "'.")
    | some task =>
      if task.claimed_by ≠ some agentName then
        .error "Error: This task is claimed by someone else, not you."
      else if env.hasRemote ∧ env.isRebased = false then
        .error "Error: Branch is not rebased onto latest main."
      else if env.pushOk = false then .error "Push failed"
      else
        .ok { registry := r.submitTask currentBranch,
              prCreated := env.createPrOk,
              clean := env.finalPushOk }

/-- The `approve` command (`cli.py`): validation only; the PR lookup and
approval have every failure caught, and the registry is never saved.  The
result on success is the untouched registry together with the number of
the externally approved PR, if the lookup succeeded, a PR matched the
task's branch, and the approval call succeeded. -/
def approve (env : GitEnv) (agentName : String) (r : Registry)
    (task_id : String) : Except String (Registry × Option Nat) :=
  match r.get_task task_id with
  | none => .error ("Error: Task '" ++ task_id ++ "' not found.")
  | some task =>
    if task.status ≠ .review then
      .error ("Error: Task is not in review (status: " ++ task.status.value ++ ").")
    else if task.claimed_by == some agentName then
      .error "Error: You cannot approve your own task."
    else
      .ok (r, approvedPrNumber env task)

/-- Result of a successful merge: the saved registry, the number of the
PR that was merged, and whether the pull and trailing push on the default
branch (both after the save) succeeded. -/
structure MergeResult where
  registry : Registry
  mergedPr : Nat
  clean : Bool
  deriving DecidableEq, Repr

/-- The `merge` command (`cli.py`): the task must be in review; the PR
listing and the merge of the first open PR whose branch equals the task's
branch are fatal on failure, and a missing match is fatal; on success the
task is marked merged and saved before the default branch is pulled and
the registry commit pushed. -/
def merge_task (env : GitEnv) (r : Registry) (task_id : String) :
    Except String MergeResult :=
  match r.get_task task_id with
  | none => .error ("Error: Task '" ++ task_id ++ "' not found.")
  | some task =>
    if task.status ≠ .review then
      .error ("Error: Task is not in review (status: " ++ task.status.value ++ ").")
    else if env.listPrsOk = false then .error "Merge failed: could not list PRs"
    else
      match env.prs.find? (fun pr => some pr.branch == task.branch) with
      | none => .error "No matching PR found on GitHub."
      | some pr =>
        if env.mergePrOk = false then .error "Merge failed"
        else
          .ok { registry := r.mergeTask task_id,
                mergedPr := pr.number,
                clean := env.pullOk && env.finalPushOk }

/-! Normal forms of the two registry checks, written from the spec's
description, to be proved equal to the loop translations above. -/

/-- Descriptor emitted for one dependency id, following the spec: absent
dependency gives "id (not found)", un-merged dependency gives
"id (status: <status>)", merged dependency gives nothing. -/
def depDescr (r : Registry) (dep_id : String) : Option String :=
  match r.get_task dep_id with
  | none => some (dep_id ++ " (not found)")
  | some dep =>
    if dep.status = .merged then none
    else some (dep_id ++ " (status: " ++ dep.status.value ++ ")")

/-- Conflict pairs contributed by one other task, following the spec: a
task never conflicts with itself, only active other tasks contribute, and
every overlapping pair of one file of `task` and one file of `other` is
emitted, in file-list order. -/
def conflictPairs (task other : Task) : List (String × Task) :=
  if other.id == task.id then []
  else if ¬ activeStatus other.status then []
  else
    task.files.flatMap (fun task_file =>
      other.files.filterMap (fun other_file =>
        if paths_overlap task_file other_file then some (task_file, other)
        else none))

/-! Step relations on registries, one per workflow operation: `r` steps
to `r'` when the operation succeeds on `r` with saved registry `r'`. -/

/-- One successful claim, for some environment, agent, task and force flag. -/
def ClaimStep (r r' : Registry) : Prop :=
  ∃ env agentName task_id force, claim env agentName r task_id force = .ok r'

/-- One successful submit whose matched task is not merged (the task
matching the current branch): for some environment, agent and branches. -/
def SubmitStepUnmerged (r r' : Registry) : Prop :=
  ∃ env agentName currentBranch defaultBranch res,
    submit env agentName currentBranch defaultBranch r = .ok res ∧
    res.registry = r' ∧
    ∀ t ∈ r.tasks, t.branch = some currentBranch → t.status ≠ .merged

/-- One successful approve, for some environment, agent and task id. -/
def ApproveStep (r r' : Registry) : Prop :=
  ∃ env agentName task_id res,
    approve env agentName r task_id = .ok res ∧ res.1 = r'

/-- One successful merge, for some environment and task id. -/
def MergeStep (r r' : Registry) : Prop :=
  ∃ env task_id res, merge_task env r task_id = .ok res ∧ res.registry = r'

/-! Concrete fixtures used by witnesses and counterexamples. -/

/-- Environment in which every external call succeeds, there is no
remote, no branch exists yet and no PR is open. -/
def baseEnv : GitEnv :=
  { branchExists := fun _ => false, hasRemote := false, isRebased := true,
    pushOk := true, createPrOk := true, listPrsOk := true, prs := [],
    approvePrOk := true, mergePrOk := true, pullOk := true,
    finalPushOk := true }

/-- Registry with a single pending unscoped task "t1". -/
def regPending : Registry :=
  { goal := "g", tasks := [{ id := "t1", description := "d" }] }

/-- Registry with a single merged task "t1" owned by alice with its claim
branch still recorded. -/
def regMerged : Registry :=
  { goal := "g",
    tasks := [{ id := "t1", description := "d", status := .merged,
                claimed_by := some "alice",
                branch := some "agent/alice/t1" }] }

/-- Task "t1" in review, owned by alice. -/
def taskReviewT1 : Task :=
  { id := "t1", description := "d", status := .review,
    claimed_by := some "alice", branch := some "agent/alice/t1" }

/-- Registry with the single task `taskReviewT1`. -/
def regReview : Registry :=
  { goal := "g", tasks := [taskReviewT1] }

/-- Task "t1" claimed by alice on her claim branch. -/
def taskClaimedT1 : Task :=
  { id := "t1", description := "d", status := .claimed,
    claimed_by := some "alice", branch := some "agent/alice/t1" }

/-- Registry with the single task `taskClaimedT1`. -/
def regClaimed : Registry :=
  { goal := "g", tasks := [taskClaimedT1] }

/-- An open PR whose branch is alice's claim branch for "t1". -/
def prT1 : PRInfo :=
  { number := 7, title := "t1", branch := "agent/alice/t1",
    author := "alice", url := "u" }

/-- Environment in which the claim branch already exists. -/
def envBranchTaken : GitEnv :=
  { baseEnv with branchExists := fun _ => true }

/-- Environment in which `prT1` is the only open PR. -/
def envPr : GitEnv :=
  { baseEnv with prs := [prT1] }

/-- Environment with `prT1` open but a failing external PR merge. -/
def envPrNoMerge : GitEnv :=
  { baseEnv with prs := [prT1], mergePrOk := false }

/-- Environment in which external PR creation fails. -/
def envNoPr : GitEnv :=
  { baseEnv with createPrOk := false }

/-- Environment in which the branch push fails. -/
def envNoPush : GitEnv :=
  { baseEnv with pushOk := false }

/-- Task depending on "a" and "b". -/
def taskC : Task :=
  { id := "c", description := "d", depends_on := ["a", "b"] }

/-- Registry for the dependency example: "a" merged, "b" claimed, and a
task "c" depending on both. -/
def regDeps : Registry :=
  { goal := "g",
    tasks := [{ id := "a", description := "d", status := .merged },
              { id := "b", description := "d", status := .claimed },
              taskC] }

/-- Pending task scoped to "src/auth". -/
def taskT1 : Task :=
  { id := "t1", description := "d", files := ["src/auth"] }

/-- Claimed task scoped to "src/auth2", whose path shares a string prefix
with taskT1's without being related as directories. -/
def taskT2 : Task :=
  { id := "t2", description := "d", status := .claimed,
    claimed_by := some "bob", files := ["src/auth2"] }

/-- Registry holding taskT1 and taskT2. -/
def regConf : Registry :=
  { goal := "g", tasks := [taskT1, taskT2] }

/-- Claimed task with an empty files list. -/
def taskNoFiles : Task :=
  { id := "t9", description := "d", status := .claimed }

/-- Task whose claimed_by is present but empty, which the serializer
drops. -/
def taskEmptyOwner : Task :=
  { id := "t1", description := "d", status := .claimed,
    claimed_by := some "" }

/-- Registry containing `taskEmptyOwner`. -/
def regEmptyOwner : Registry :=
  { goal := "g", tasks := [taskEmptyOwner] }

/-- Registry exercising every serialized field: owner, branch, files and
dependencies all present and non-empty, plus a bare pending task. -/
def regFull : Registry :=
  { goal := "g",
    tasks := [{ id := "t1", description := "d1", status := .review,
                claimed_by := some "alice",
                branch := some "agent/alice/t1",
                files := ["src/a", "src/b/"],
                depends_on := ["t0"] },
              { id := "t0", description := "d0" }] }

/-! Helper lemmas: the loop translations rewritten to `filterMap` /
`flatMap` normal forms, and facts about `updateFirstBy`. -/

theorem check_dependencies_aux (r : Registry) :
    ∀ (deps : List String) (init : List String),
      deps.foldl
        (fun unmet dep_id =>
          match r.get_task dep_id with
          | none => unmet ++ [dep_id ++ " (not found)"]
          | some dep =>
            if dep.status ≠ .merged then
              unmet ++ [dep_id ++ " (status: " ++ dep.status.value ++ ")"]
            else unmet)
        init
      = init ++ deps.filterMap (depDescr r)
  | [], init => by simp
  | d :: deps, init => by
    rw [List.foldl_cons, List.filterMap_cons]
    cases hg : r.get_task d with
    | none =>
      simp only [depDescr, hg]
      rw [check_dependencies_aux r deps]
      simp
    | some dep =>
      by_cases hs : dep.status = .merged
      · simp only [depDescr, hg, hs]
        rw [if_neg (by simp), check_dependencies_aux r deps]
        simp
      · simp only [depDescr, hg, if_neg hs]
        rw [if_pos hs, check_dependencies_aux r deps]
        simp

/-- The dependency loop equals a `filterMap` of per-dependency
descriptors, in `depends_on` order. -/
theorem check_dependencies_eq (r : Registry) (task : Task) :
    r.check_dependencies task = task.depends_on.filterMap (depDescr r) := by
  rw [Registry.check_dependencies, check_dependencies_aux r]
  simp

theorem conflicts_inner_aux (task_file : String) (other : Task) :
    ∀ (fs : List String) (init : List (String × Task)),
      fs.foldl
        (fun cs2 other_file =>
          if paths_overlap task_file other_file then cs2 ++ [(task_file, other)]
          else cs2)
        init
      = init ++ fs.filterMap
          (fun other_file =>
            if paths_overlap task_file other_file then some (task_file, other)
            else none)
  | [], init => by simp
  | f :: fs, init => by
    rw [List.foldl_cons, List.filterMap_cons]
    by_cases hp : paths_overlap task_file f
    · rw [if_pos hp, if_pos hp, conflicts_inner_aux task_file other fs]
      simp
    · rw [if_neg hp, if_neg hp, conflicts_inner_aux task_file other fs]

theorem conflicts_middle_aux (other : Task) :
    ∀ (fs : List String) (init : List (String × Task)),
      fs.foldl
        (fun cs task_file =>
          other.files.foldl
            (fun cs2 other_file =>
              if paths_overlap task_file other_file then cs2 ++ [(task_file, other)]
              else cs2)
            cs)
        init
      = init ++ fs.flatMap
          (fun task_file =>
            other.files.filterMap
              (fun other_file =>
                if paths_overlap task_file other_file then some (task_file, other)
                else none))
  | [], init => by simp
  | f :: fs, init => by
    rw [List.foldl_cons, conflicts_inner_aux f other, List.flatMap_cons,
        conflicts_middle_aux other fs]
    simp

theorem check_file_conflicts_aux (task : Task) :
    ∀ (ts : List Task) (init : List (String × Task)),
      ts.foldl
        (fun conflicts other =>
          if other.id == task.id then conflicts
          else if ¬ activeStatus other.status then conflicts
          else
            task.files.foldl
              (fun cs task_file =>
                other.files.foldl
                  (fun cs2 other_file =>
                    if paths_overlap task_file other_file then
                      cs2 ++ [(task_file, other)]
                    else cs2)
                  cs)
              conflicts)
        init
      = init ++ ts.flatMap (conflictPairs task)
  | [], init => by simp
  | other :: ts, init => by
    rw [List.foldl_cons, List.flatMap_cons]
    by_cases h1 : other.id == task.id
    · rw [if_pos h1, check_file_conflicts_aux task ts]
      simp [conflictPairs, h1]
    · by_cases h2 : activeStatus other.status
      · rw [if_neg h1, if_neg (by simp [h2]), conflicts_middle_aux other,
            check_file_conflicts_aux task ts]
        simp [conflictPairs, h1, h2]
      · rw [if_neg h1, if_pos (by simp [h2]), check_file_conflicts_aux task ts]
        simp [conflictPairs, h1, h2]

/-- The conflict triple loop equals a `flatMap` over the other tasks in
registry order of the per-task conflict pairs. -/
theorem check_file_conflicts_eq (r : Registry) (task : Task) :
    r.check_file_conflicts task = r.tasks.flatMap (conflictPairs task) := by
  rw [Registry.check_file_conflicts, check_file_conflicts_aux task]
  simp

/-- Membership in the conflict pairs of one other task. -/
theorem mem_conflictPairs {task other : Task} {file : String} {u : Task} :
    (file, u) ∈ conflictPairs task other ↔
      u = other ∧ other.id ≠ task.id ∧ activeStatus other.status = true ∧
      file ∈ task.files ∧
      ∃ other_file ∈ other.files, paths_overlap file other_file = true := by
  unfold conflictPairs
  split_ifs with h1 h2
  · simp only [beq_iff_eq] at h1
    simp [h1]
  · simp only [beq_iff_eq] at h1
    simp only [List.mem_flatMap, List.mem_filterMap]
    constructor
    · rintro ⟨tf, htf, of, hof, hsome⟩
      by_cases hp : paths_overlap tf of
      · rw [if_pos hp, Option.some.injEq, Prod.mk.injEq] at hsome
        obtain ⟨rfl, rfl⟩ := hsome
        exact ⟨rfl, h1, h2, htf, of, hof, hp⟩
      · rw [if_neg hp] at hsome
        exact absurd hsome (by simp)
    · rintro ⟨rfl, -, -, htf, of, hof, hp⟩
      exact ⟨file, htf, of, hof, by rw [if_pos hp]⟩
  · simp only [Bool.not_eq_true] at h2
    simp [h2]

theorem find?_updateFirstBy (p : Task → Bool) (f : Task → Task)
    (hpf : ∀ t, p (f t) = p t) :
    ∀ l : List Task, (updateFirstBy p f l).find? p = (l.find? p).map f
  | [] => rfl
  | t :: ts => by
    by_cases h : p t
    · rw [updateFirstBy, if_pos h,
          List.find?_cons_of_pos _ (by rw [hpf]; exact h),
          List.find?_cons_of_pos _ h, Option.map_some']
    · rw [updateFirstBy, if_neg h, List.find?_cons_of_neg _ h,
          List.find?_cons_of_neg _ h, find?_updateFirstBy p f hpf ts]

theorem forall₂_updateFirstBy_of_find? (R : Task → Task → Prop)
    (hrefl : ∀ t, R t t) (p : Task → Bool) (f : Task → Task) :
    ∀ (l : List Task) (t₀ : Task), l.find? p = some t₀ → R t₀ (f t₀) →
      List.Forall₂ R l (updateFirstBy p f l)
  | [], _, h, _ => by cases h
  | t :: ts, t₀, h, hR => by
    by_cases hp : p t
    · rw [List.find?_cons_of_pos _ hp, Option.some.injEq] at h
      subst h
      rw [updateFirstBy, if_pos hp]
      exact List.Forall₂.cons hR (List.forall₂_same.mpr fun x _ => hrefl x)
    · rw [List.find?_cons_of_neg _ hp] at h
      rw [updateFirstBy, if_neg hp]
      exact List.Forall₂.cons (hrefl t)
        (forall₂_updateFirstBy_of_find? R hrefl p f ts t₀ h hR)

/-- Success characterization of `claim`. -/
theorem claim_ok_iff {env : GitEnv} {agentName : String} {r : Registry}
    {task_id : String} {force : Bool} {r' : Registry} :
    claim env agentName r task_id force = .ok r' ↔
      ∃ task, r.get_task task_id = some task ∧ task.status = .pending ∧
        (r.check_dependencies task = [] ∨ force = true) ∧
        (r.check_file_conflicts task = [] ∨ force = true) ∧
        env.branchExists ("agent/" ++ agentName ++ "/" ++ task_id) = false ∧
        r' = r.claimTask agentName task_id
               ("agent/" ++ agentName ++ "/" ++ task_id) := by
  unfold claim
  cases hg : r.get_task task_id with
  | none => simp
  | some task =>
    simp only [Option.some.injEq, exists_eq_left']
    split_ifs with h1 h2 h3 h4
    · simp [h1]
    · obtain ⟨hne, hforce⟩ := h2
      simp [hne, hforce]
    · obtain ⟨hne, hforce⟩ := h3
      simp [hne, hforce]
    · simp [h4]
    · rw [not_not] at h1
      constructor
      · intro h
        injection h with h
        refine ⟨h1, ?_, ?_, by simpa using h4, h.symm⟩
        · rcases not_and_or.mp h2 with hd | hf
          · exact Or.inl (not_not.mp hd)
          · exact Or.inr (Bool.not_eq_false force ▸ hf)
        · rcases not_and_or.mp h3 with hc | hf
          · exact Or.inl (not_not.mp hc)
          · exact Or.inr (Bool.not_eq_false force ▸ hf)
      · rintro ⟨-, -, -, -, rfl⟩
        rfl

/-- Success characterization of `submit`. -/
theorem submit_ok_iff {env : GitEnv} {agentName currentBranch defaultBranch : String}
    {r : Registry} {res : SubmitResult} :
    submit env agentName currentBranch defaultBranch r = .ok res ↔
      currentBranch ≠ defaultBranch ∧
      ∃ task, r.tasks.find? (fun t => t.branch == some currentBranch) = some task ∧
        task.claimed_by = some agentName ∧
        (env.hasRemote = false ∨ env.isRebased = true) ∧
        env.pushOk = true ∧
        res = { registry := r.submitTask currentBranch,
                prCreated := env.createPrOk,
                clean := env.finalPushOk } := by
  unfold submit
  by_cases h0 : currentBranch == defaultBranch
  · rw [if_pos h0]
    simp only [beq_iff_eq] at h0
    simp [h0]
  · rw [if_neg h0]
    simp only [beq_iff_eq] at h0
    cases hf : r.tasks.find? (fun t => t.branch == some currentBranch) with
    | none => simp
    | some task =>
      simp only [Option.some.injEq, exists_eq_left']
      by_cases h1 : task.claimed_by = some agentName
      · rw [if_neg (not_not_intro h1)]
        by_cases h2 : env.hasRemote = true ∧ env.isRebased = false
        · rw [if_pos h2]
          simp [h2.1, h2.2]
        · rw [if_neg h2]
          by_cases h3 : env.pushOk = false
          · rw [if_pos h3]
            simp [h3]
          · rw [if_neg h3]
            rw [Bool.not_eq_false] at h3
            constructor
            · intro h
              injection h with h
              refine ⟨h0, h1, ?_, h3, h.symm⟩
              rcases not_and_or.mp h2 with hr | hreb
              · exact Or.inl (by simpa using hr)
              · exact Or.inr (by simpa using hreb)
            · rintro ⟨-, -, -, -, rfl⟩
              rfl
      · rw [if_pos h1]
        simp [h1]

/-- Success characterization of `approve`. -/
theorem approve_ok_iff {env : GitEnv} {agentName : String} {r : Registry}
    {task_id : String} {res : Registry × Option Nat} :
    approve env agentName r task_id = .ok res ↔
      ∃ task, r.get_task task_id = some task ∧ task.status = .review ∧
        task.claimed_by ≠ some agentName ∧
        res = (r, approvedPrNumber env task) := by
  unfold approve
  cases hg : r.get_task task_id with
  | none => simp
  | some task =>
    simp only [Option.some.injEq, exists_eq_left']
    split_ifs with h1 h2
    · simp [h1]
    · simp only [beq_iff_eq] at h2
      simp [h2]
    · rw [not_not] at h1
      simp only [beq_iff_eq] at h2
      constructor
      · intro h
        injection h with h
        exact ⟨h1, h2, h.symm⟩
      · rintro ⟨-, -, rfl⟩
        rfl

/-- Success characterization of `merge`. -/
theorem merge_ok_iff {env : GitEnv} {r : Registry} {task_id : String}
    {res : MergeResult} :
    merge_task env r task_id = .ok res ↔
      ∃ task, r.get_task task_id = some task ∧ task.status = .review ∧
        env.listPrsOk = true ∧
        ∃ pr, env.prs.find? (fun q => some q.branch == task.branch) = some pr ∧
          env.mergePrOk = true ∧
          res = { registry := r.mergeTask task_id, mergedPr := pr.number,
                  clean := env.pullOk && env.finalPushOk } := by
  unfold merge_task
  cases hg : r.get_task task_id with
  | none => simp
  | some task =>
    simp only [Option.some.injEq, exists_eq_left']
    by_cases h1 : task.status = .review
    · rw [if_neg (not_not_intro h1)]
      by_cases h2 : env.listPrsOk = false
      · rw [if_pos h2]
        simp [h2]
      · rw [if_neg h2]
        rw [Bool.not_eq_false] at h2
        cases hf : env.prs.find? (fun q => some q.branch == task.branch) with
        | none => simp
        | some pr =>
          simp only [Option.some.injEq, exists_eq_left']
          by_cases h3 : env.mergePrOk = false
          · rw [if_pos h3]
            simp [h3]
          · rw [if_neg h3]
            rw [Bool.not_eq_false] at h3
            constructor
            · intro h
              injection h with h
              exact ⟨h1, h2, h3, h.symm⟩
            · rintro ⟨-, -, -, rfl⟩
              rfl
    · rw [if_pos h1]
      simp [h1]

/-! Claim theorems. -/

/-- C3: checkDependencies returns one descriptor per id in the task's
dependsOn list, in dependsOn order — "id (not found)" when no task with
that id exists, "id (status: <status>)" when the dependency exists with a
status other than merged, nothing when it is merged — and the result is
empty exactly when every dependency is merged (in particular an empty
dependsOn yields an empty result). -/
theorem C3_check_dependencies (r : Registry) (task : Task) :
    r.check_dependencies task = task.depends_on.filterMap (depDescr r) ∧
    (r.check_dependencies task = [] ↔
      ∀ dep_id ∈ task.depends_on,
        ∃ dep, r.get_task dep_id = some dep ∧ dep.status = .merged) := by
  refine ⟨check_dependencies_eq r task, ?_⟩
  rw [check_dependencies_eq r task, List.filterMap_eq_nil_iff]
  constructor
  · intro h dep_id hmem
    have hd := h dep_id hmem
    cases hg : r.get_task dep_id with
    | none => simp only [depDescr, hg] at hd; exact absurd hd (by simp)
    | some dep =>
      simp only [depDescr, hg] at hd
      split_ifs at hd with hs
      · exact ⟨dep, rfl, hs⟩
  · intro h dep_id hmem
    obtain ⟨dep, hg, hs⟩ := h dep_id hmem
    simp only [depDescr, hg, if_pos hs]

/-- Witness for C3 at the spec's example: dependsOn = ["a","b"] with "a"
merged and "b" claimed gives exactly one descriptor, for "b". -/
theorem C3_check_dependencies_witness :
    regDeps.check_dependencies taskC = ["b (status: claimed)"] ∧
    (regDeps.check_dependencies taskC = [] ↔
      ∀ dep_id ∈ taskC.depends_on,
        ∃ dep, regDeps.get_task dep_id = some dep ∧ dep.status = .merged) :=
  ⟨by decide, (C3_check_dependencies regDeps taskC).2⟩

/-- C4: two paths overlap iff, after stripping trailing slashes from
both, one is a character-level prefix of the other (equality included),
with no path-segment awareness; in particular "src/auth" overlaps
"src/auth2". -/
theorem C4_paths_overlap :
    (∀ p1 p2 : String, paths_overlap p1 p2 = true ↔
      ((rstripSlash p1).data <+: (rstripSlash p2).data ∨
       (rstripSlash p2).data <+: (rstripSlash p1).data)) ∧
    paths_overlap "src/auth" "src/auth2" = true := by
  constructor
  · intro p1 p2
    unfold paths_overlap strStartsWith
    simp only [Bool.or_eq_true, List.isPrefixOf_iff_prefix, beq_iff_eq]
    have heq : rstripSlash p1 = rstripSlash p2 →
        (rstripSlash p1).data <+: (rstripSlash p2).data :=
      fun h => h ▸ List.prefix_refl _
    tauto
  · decide

/-- Witness for C4's equivalence: trailing-slash stripping makes
"src/a/" overlap "src/a". -/
theorem C4_paths_overlap_witness :
    paths_overlap "src/a/" "src/a" = true :=
  (C4_paths_overlap.1 "src/a/" "src/a").mpr (Or.inl (by decide))

/-- C5: checkFileConflicts equals, pair for pair and in order, the outer
loop over the other tasks in registry order of the per-task conflict
pairs (task's files outer, other's files inner, no deduplication), and a
pair (file, other) occurs iff other is a registry task distinct from the
queried one, with active status (claimed, in_progress or review), and
file is a file of the queried task overlapping some file of other. -/
theorem C5_check_file_conflicts (r : Registry) (task : Task) :
    r.check_file_conflicts task = r.tasks.flatMap (conflictPairs task) ∧
    ∀ (file : String) (other : Task),
      ((file, other) ∈ r.check_file_conflicts task ↔
        other ∈ r.tasks ∧ other.id ≠ task.id ∧
        activeStatus other.status = true ∧ file ∈ task.files ∧
        ∃ other_file ∈ other.files, paths_overlap file other_file = true) := by
  refine ⟨check_file_conflicts_eq r task, ?_⟩
  intro file other
  rw [check_file_conflicts_eq r task, List.mem_flatMap]
  constructor
  · rintro ⟨u, hu, hmem⟩
    obtain ⟨rfl, hne, hact, hfile, hov⟩ := mem_conflictPairs.mp hmem
    exact ⟨hu, hne, hact, hfile, hov⟩
  · rintro ⟨hmem, hne, hact, hfile, hov⟩
    exact ⟨other, hmem, mem_conflictPairs.mpr ⟨rfl, hne, hact, hfile, hov⟩⟩

/-- Witness for C5: the documented quirk pair is a conflict, and the
pending task taskT1 never shows up as a conflict of taskT2. -/
theorem C5_check_file_conflicts_witness :
    ("src/auth", taskT2) ∈ regConf.check_file_conflicts taskT1 ∧
    regConf.check_file_conflicts taskT2 = [] :=
  ⟨((C5_check_file_conflicts regConf taskT1).2 "src/auth" taskT2).mpr
      ⟨by decide, by decide, by decide, by decide, "src/auth2", by decide, by decide⟩,
    by decide⟩

/-- C10: a task with an empty files list produces no conflicts and never
appears as the other side of any conflict pair, whatever its status. -/
theorem C10_empty_files (r : Registry) (task : Task) (h : task.files = []) :
    r.check_file_conflicts task = [] ∧
    ∀ (u : Task) (file : String), (file, task) ∉ r.check_file_conflicts u := by
  constructor
  · rw [check_file_conflicts_eq, List.flatMap_eq_nil_iff]
    intro other _
    unfold conflictPairs
    split_ifs <;> simp [h]
  · intro u file hmem
    rw [check_file_conflicts_eq, List.mem_flatMap] at hmem
    obtain ⟨v, _, hmem⟩ := hmem
    obtain ⟨rfl, -, -, -, of, hof, -⟩ := mem_conflictPairs.mp hmem
    rw [h] at hof
    exact absurd hof (List.not_mem_nil of)

/-- Witness for C10 at a concrete claimed task with no files. -/
theorem C10_empty_files_witness :
    regConf.check_file_conflicts taskNoFiles = [] :=
  (C10_empty_files regConf taskNoFiles rfl).1

/-- C1 counterexample: for the pending task "t1" of `regPending` every
condition of the claim holds — the task exists and is pending, it has no
dependencies and no file conflicts — yet claim fails in an environment
where the branch agent/alice/t1 already exists. -/
theorem C1_claim_counterexample :
    regPending.get_task "t1" = some { id := "t1", description := "d" } ∧
    ({ id := "t1", description := "d" } : Task).status = .pending ∧
    regPending.check_dependencies { id := "t1", description := "d" } = [] ∧
    regPending.check_file_conflicts { id := "t1", description := "d" } = [] ∧
    (claim envBranchTaken "alice" regPending "t1" false).toOption = none := by
  decide

/-- C1 (amended): claim succeeds iff the task exists with status pending,
its dependencies are satisfied or --force is given, it has no file
conflicts with active tasks or --force is given, and additionally no
branch named agent/<agentName>/<taskId> already exists; whenever claim
succeeds, the task's status becomes claimed, claimedBy is the claiming
agent's name and branch is exactly agent/<agentName>/<taskId>. -/
theorem C1_claim (env : GitEnv) (agentName : String) (r : Registry)
    (task_id : String) (force : Bool) :
    ((∃ r', claim env agentName r task_id force = .ok r') ↔
      (∃ task, r.get_task task_id = some task ∧ task.status = .pending ∧
        (r.check_dependencies task = [] ∨ force = true) ∧
        (r.check_file_conflicts task = [] ∨ force = true)) ∧
      env.branchExists ("agent/" ++ agentName ++ "/" ++ task_id) = false) ∧
    (∀ r', claim env agentName r task_id force = .ok r' →
      ∃ task, r.get_task task_id = some task ∧
        r'.get_task task_id = some
          { task with status := .claimed, claimed_by := some agentName,
                      branch := some ("agent/" ++ agentName ++ "/" ++ task_id) }) := by
  constructor
  · constructor
    · rintro ⟨r', hr'⟩
      obtain ⟨task, hg, hp, hd, hc, hb, -⟩ := claim_ok_iff.mp hr'
      exact ⟨⟨task, hg, hp, hd, hc⟩, hb⟩
    · rintro ⟨⟨task, hg, hp, hd, hc⟩, hb⟩
      exact ⟨_, claim_ok_iff.mpr ⟨task, hg, hp, hd, hc, hb, rfl⟩⟩
  · intro r' hr'
    obtain ⟨task, hg, -, -, -, -, rfl⟩ := claim_ok_iff.mp hr'
    refine ⟨task, hg, ?_⟩
    show List.find? (fun t => t.id == task_id)
        (updateFirstBy (fun t => t.id == task_id)
          (claimUpdate agentName ("agent/" ++ agentName ++ "/" ++ task_id))
          r.tasks)
      = _
    rw [find?_updateFirstBy (fun t => t.id == task_id)
          (claimUpdate agentName ("agent/" ++ agentName ++ "/" ++ task_id))
          (fun t => rfl) r.tasks]
    unfold Registry.get_task at hg
    rw [hg]
    rfl

/-- Witness for C1 at a concrete pending task: the success conditions
hold and claim indeed succeeds. -/
theorem C1_claim_witness :
    (claim baseEnv "alice" regPending "t1" false).toOption.isSome = true := by
  obtain ⟨r', hr'⟩ := (C1_claim baseEnv "alice" regPending "t1" false).1.mpr
    ⟨⟨{ id := "t1", description := "d" }, by decide, by decide,
      Or.inl (by decide), Or.inl (by decide)⟩, by decide⟩
  rw [hr']
  rfl

/-- C2 counterexample: submit run by alice on the branch of the merged
task "t1" succeeds and moves that task's status from merged back to
review, a backward move along the workflow order. -/
theorem C2_monotonic_counterexample :
    regMerged.tasks.map Task.status = [.merged] ∧
    (submit baseEnv "alice" "agent/alice/t1" "main" regMerged).toOption.map
        (fun res => res.registry.tasks.map Task.status) = some [.review] ∧
    statusIdx .review < statusIdx .merged := by
  decide

/-- C2 (amended): Claim, Approve and Merge never move any task's status
backward along pending → claimed → in_progress → review → merged (in
particular they never change a merged task's status), and neither does
Submit provided the task matched by the current branch is not merged;
Submit sets the matched task's status to review regardless of its
previous status, so Submit alone can move a merged task back to review. -/
theorem C2_monotonic (r r' : Registry) :
    ClaimStep r r' ∨ SubmitStepUnmerged r r' ∨ ApproveStep r r' ∨ MergeStep r r' →
    List.Forall₂ taskStatusLe r.tasks r'.tasks := by
  intro h
  have hrefl : ∀ t, taskStatusLe t t := fun t => Nat.le.refl
  rcases h with ⟨env, a, id, force, hok⟩ | ⟨env, a, cb, db, res, hok, hr', hnm⟩ |
    ⟨env, a, id, res, hok, hr'⟩ | ⟨env, id, res, hok, hr'⟩
  · obtain ⟨task, hg, hp, -, -, -, rfl⟩ := claim_ok_iff.mp hok
    refine forall₂_updateFirstBy_of_find? taskStatusLe hrefl
      _ _ r.tasks task (show r.tasks.find? (fun t => t.id == id) = some task from hg) ?_
    have hle : statusIdx task.status ≤ statusIdx TaskStatus.claimed := by
      rw [hp]
      exact Nat.zero_le _
    exact hle
  · obtain ⟨-, task, hf, -, -, -, rfl⟩ := submit_ok_iff.mp hok
    subst hr'
    have hbr : task.branch = some cb := by
      have := List.find?_some hf
      simpa using this
    have hnm' : task.status ≠ .merged :=
      hnm task (List.mem_of_find?_eq_some hf) hbr
    refine forall₂_updateFirstBy_of_find? taskStatusLe hrefl
      _ _ r.tasks task hf ?_
    have hle : statusIdx task.status ≤ statusIdx TaskStatus.review := by
      cases hts : task.status with
      | pending => exact Nat.zero_le _
      | claimed => decide
      | in_progress => decide
      | review => decide
      | merged => exact absurd hts hnm'
    exact hle
  · obtain ⟨task, hg, -, -, rfl⟩ := approve_ok_iff.mp hok
    subst hr'
    exact List.forall₂_same.mpr fun x _ => hrefl x
  · obtain ⟨task, hg, hs, -, pr, -, -, rfl⟩ := merge_ok_iff.mp hok
    subst hr'
    refine forall₂_updateFirstBy_of_find? taskStatusLe hrefl
      _ _ r.tasks task (show r.tasks.find? (fun t => t.id == id) = some task from hg) ?_
    have hle : statusIdx task.status ≤ statusIdx TaskStatus.merged := by
      rw [hs]
      decide
    exact hle

/-- Witness for C2: a concrete claim step from `regPending` is a
status-monotone transition. -/
theorem C2_monotonic_witness :
    List.Forall₂ taskStatusLe regPending.tasks
      (regPending.claimTask "alice" "t1" ("agent/" ++ "alice" ++ "/" ++ "t1")).tasks :=
  C2_monotonic regPending _
    (Or.inl ⟨baseEnv, "alice", "t1", false,
      claim_ok_iff.mpr ⟨{ id := "t1", description := "d" }, by decide, by decide,
        Or.inl (by decide), Or.inl (by decide), by decide, rfl⟩⟩)

/-- C6: for a task in review, approve requested by the agent recorded in
claimedBy fails with the self-approval validation error whatever the
external PR state (the environment is arbitrary); an error result models
`sys.exit(1)` before any save, so the registry file is untouched. -/
theorem C6_no_self_approve (env : GitEnv) (agentName : String) (r : Registry)
    (task_id : String) (task : Task)
    (hg : r.get_task task_id = some task)
    (hs : task.status = .review)
    (hc : task.claimed_by = some agentName) :
    approve env agentName r task_id =
      .error "Error: You cannot approve your own task." := by
  simp only [approve, hg]
  rw [if_neg (not_not_intro hs), if_pos (by simp [hc])]

/-- Witness for C6: alice cannot approve her own reviewed task, in the
environment where every external call would succeed. -/
theorem C6_no_self_approve_witness :
    approve baseEnv "alice" regReview "t1" =
      .error "Error: You cannot approve your own task." :=
  C6_no_self_approve baseEnv "alice" regReview "t1" taskReviewT1
    (by decide) (by decide) (by decide)

theorem find?_first {α : Type} (p : α → Bool) :
    ∀ (pre : List α) (x : α) (post : List α),
      (∀ q ∈ pre, p q = false) → p x = true →
      (pre ++ x :: post).find? p = some x
  | [], x, post, _, hx => by
    rw [List.nil_append, List.find?_cons_of_pos _ hx]
  | q :: pre, x, post, hpre, hx => by
    rw [List.cons_append,
        List.find?_cons_of_neg _ (by simp [hpre q (List.mem_cons_self q pre)]),
        find?_first p pre x post
          (fun y hy => hpre y (List.mem_cons_of_mem q hy)) hx]

/-- C7 counterexample: "t1" is in review and an open PR matches its
branch, yet merge fails (so the claim's "when a match exists it sets the
task's status to Merged" is false as stated) because the external PR
merge command fails. -/
theorem C7_merge_counterexample :
    regReview.get_task "t1" = some taskReviewT1 ∧
    taskReviewT1.status = .review ∧
    envPrNoMerge.listPrsOk = true ∧
    envPrNoMerge.prs.find? (fun q => some q.branch == taskReviewT1.branch)
      = some prT1 ∧
    (merge_task envPrNoMerge regReview "t1").toOption = none := by
  decide

/-- C7 (amended): for a task in review, merge fails — modelling exit
before any save, hence no registry mutation — when the PR listing
succeeds but no open PR matches the task's branch; and when a match
exists and the external PR merge succeeds, the PR merged is the first
match in returned list order and the task's status is set to merged,
independent of the subsequent pull and push outcomes on the default
branch (which run only after the registry is written). -/
theorem C7_merge (env : GitEnv) (r : Registry) (task_id : String) (task : Task)
    (hg : r.get_task task_id = some task) (hs : task.status = .review) :
    (env.listPrsOk = true →
      env.prs.find? (fun q => some q.branch == task.branch) = none →
      merge_task env r task_id = .error "No matching PR found on GitHub.") ∧
    (∀ pre pr post,
      env.listPrsOk = true → env.mergePrOk = true →
      env.prs = pre ++ pr :: post →
      (∀ q ∈ pre, (some q.branch == task.branch) = false) →
      (some pr.branch == task.branch) = true →
      merge_task env r task_id =
        .ok { registry := r.mergeTask task_id, mergedPr := pr.number,
              clean := env.pullOk && env.finalPushOk } ∧
      (r.mergeTask task_id).get_task task_id =
        some { task with status := .merged }) := by
  constructor
  · intro hl hnone
    simp only [merge_task, hg]
    rw [if_neg (not_not_intro hs), if_neg (by simp [hl]), hnone]
  · intro pre pr post hl hm hprs hpre hpr
    constructor
    · exact merge_ok_iff.mpr ⟨task, hg, hs, hl, pr,
        by rw [hprs, find?_first _ pre pr post hpre hpr], hm, rfl⟩
    · show List.find? (fun t => t.id == task_id)
          (updateFirstBy (fun t => t.id == task_id)
            (fun t => { t with status := .merged }) r.tasks)
        = _
      rw [find?_updateFirstBy (fun t => t.id == task_id)
            (fun t => { t with status := .merged }) (fun t => rfl) r.tasks]
      rw [show r.tasks.find? (fun t => t.id == task_id) = some task from hg]
      rfl

/-- Witness for C7: with prT1 the only open PR, merging the reviewed
task "t1" succeeds, merges PR 7 and marks the task merged. -/
theorem C7_merge_witness :
    merge_task envPr regReview "t1" =
      .ok { registry := regReview.mergeTask "t1", mergedPr := 7,
            clean := true } ∧
    (regReview.mergeTask "t1").get_task "t1" =
      some { taskReviewT1 with status := .merged } :=
  (C7_merge envPr regReview "t1" taskReviewT1 (by decide) (by decide)).2
    [] prT1 [] rfl rfl rfl (by decide) (by decide)

/-- C8: with submit's own validations passing, a failing branch push is
fatal — submit exits before the registry is touched — while a failing
external PR creation is tolerated: submit still succeeds, the matched
task advances to review, and the saved registry is committed (the commit
precedes the only later fallible call, the trailing push). -/
theorem C8_submit_failures (env : GitEnv)
    (agentName currentBranch defaultBranch : String)
    (r : Registry) (task : Task)
    (hne : currentBranch ≠ defaultBranch)
    (hf : r.tasks.find? (fun t => t.branch == some currentBranch) = some task)
    (hcb : task.claimed_by = some agentName)
    (hreb : env.hasRemote = false ∨ env.isRebased = true) :
    (env.pushOk = false →
      submit env agentName currentBranch defaultBranch r = .error "Push failed") ∧
    (env.pushOk = true → env.createPrOk = false →
      submit env agentName currentBranch defaultBranch r =
        .ok { registry := r.submitTask currentBranch, prCreated := false,
              clean := env.finalPushOk } ∧
      (r.submitTask currentBranch).tasks.find?
          (fun t => t.branch == some currentBranch)
        = some { task with status := .review }) := by
  have hrebn : ¬(env.hasRemote = true ∧ env.isRebased = false) := by
    rcases hreb with h | h <;> simp [h]
  constructor
  · intro hpush
    simp only [submit, hf]
    rw [if_neg (by simpa using hne), if_neg (not_not_intro hcb),
        if_neg hrebn, if_pos hpush]
  · intro hpush hpr
    constructor
    · have h := submit_ok_iff.mpr ⟨hne, task, hf, hcb, hreb, hpush, rfl⟩
      rw [hpr] at h
      exact h
    · show List.find? (fun t => t.branch == some currentBranch)
          (updateFirstBy (fun t => t.branch == some currentBranch)
            (fun t => { t with status := .review }) r.tasks)
        = _
      rw [find?_updateFirstBy (fun t => t.branch == some currentBranch)
            (fun t => { t with status := .review }) (fun t => rfl) r.tasks, hf]
      rfl

/-- Witness for C8: on alice's claimed task, a push failure aborts submit
while a PR-creation failure still advances the task to review. -/
theorem C8_submit_failures_witness :
    submit envNoPush "alice" "agent/alice/t1" "main" regClaimed
      = .error "Push failed" ∧
    submit envNoPr "alice" "agent/alice/t1" "main" regClaimed
      = .ok { registry := regClaimed.submitTask "agent/alice/t1",
              prCreated := false, clean := true } :=
  ⟨(C8_submit_failures envNoPush "alice" "agent/alice/t1" "main" regClaimed
      taskClaimedT1 (by decide) (by decide) (by decide) (Or.inl rfl)).1 rfl,
   ((C8_submit_failures envNoPr "alice" "agent/alice/t1" "main" regClaimed
      taskClaimedT1 (by decide) (by decide) (by decide) (Or.inl rfl)).2 rfl rfl).1⟩

theorem ofValue_value (s : TaskStatus) : TaskStatus.ofValue s.value = some s := by
  cases s <;> rfl

theorem task_roundtrip (t : Task) (hcb : t.claimed_by ≠ some "")
    (hbr : t.branch ≠ some "") :
    Task.from_dict (Task.to_dict t) = some t := by
  obtain ⟨id, desc, status, cb, br, files, deps⟩ := t
  rcases cb with _ | c <;> rcases br with _ | b <;>
    rcases files with _ | ⟨f, fs⟩ <;> rcases deps with _ | ⟨d0, ds⟩ <;>
    simp_all [Task.to_dict, Task.from_dict, dictGet, getStr, getList,
      List.find?, ofValue_value]

theorem tasks_roundtrip :
    ∀ ts : List Task,
      (∀ t ∈ ts, t.claimed_by ≠ some "" ∧ t.branch ≠ some "") →
      fromDicts (ts.map Task.to_dict) = some ts
  | [], _ => rfl
  | t :: ts, h => by
    have ht := task_roundtrip t (h t (List.mem_cons_self t ts)).1
      (h t (List.mem_cons_self t ts)).2
    have hts := tasks_roundtrip ts (fun u hu => h u (List.mem_cons_of_mem t hu))
    simp [fromDicts, ht, hts]

/-- C9 counterexample: a registry whose task has claimed_by present but
equal to the empty string is written without the claimed_by key — Python
treats the empty string as falsy — and parses back with claimed_by
absent, so serialize-then-parse is not the identity on it. -/
theorem C9_roundtrip_counterexample :
    Registry.of_data (Registry.to_data regEmptyOwner) ≠ some regEmptyOwner ∧
    Registry.of_data (Registry.to_data regEmptyOwner) =
      some { goal := "g",
             tasks := [{ taskEmptyOwner with claimed_by := none }] } := by
  decide

/-- C9 (amended): for every registry whose tasks' claimed_by and branch
fields, when present, are non-empty, serializing to the persisted layout
(dictionaries in the field order id, description, status, claimed_by,
branch, files, depends_on, with falsy optional fields omitted) and
parsing back yields a registry field-for-field equal to the original; a
present-but-empty claimed_by or branch comes back as absent. -/
theorem C9_roundtrip (r : Registry)
    (h : ∀ t ∈ r.tasks, t.claimed_by ≠ some "" ∧ t.branch ≠ some "") :
    Registry.of_data (Registry.to_data r) = some r := by
  show (fromDicts (r.tasks.map Task.to_dict)).map
      (fun ts => { goal := r.goal, tasks := ts }) = some r
  rw [tasks_roundtrip r.tasks h]
  rfl

/-- Witness for C9 on a registry exercising every serialized field. -/
theorem C9_roundtrip_witness :
    Registry.of_data (Registry.to_data regFull) = some regFull :=
  C9_roundtrip regFull (by decide)

end Gastown
